import Mathlib

/-!
Verification of the DXE paging-audit application
(UefiTestingPkg/AuditTests/PagingAudit/UEFI/Dxe/App/DxePagingAuditTestApp.c).

The development shallowly embeds the region-attribute verification engine:
the interval predicates (CHECK_SUBSUMPTION / CHECK_OVERLAP), the RWX
exemption predicate CanRegionBeRWX, the scan loop ValidateRegionAttributes
(parameterized over the GetRegionAccessAttributes oracle, which lives in
FlatPageTableLib outside this file), the buffer-growth protocol
(ValidatePageTableMapSize / PopulatePageTableMap, with CreateFlatPageTable
modelled from the specification since its code is not part of the audited
source), the loaded-image section checks, and the out-of-inventory check.

Machine integers (UINT64) are modelled as Nat with explicit reduction
mod 2 ^ 64 at every C-level addition or subtraction that can wrap.
-/

/-- Number of values of a UINT64, i.e. 2 ^ 64. -/
def U64 : Nat := 18446744073709551616

/-- C UINT64 addition: wraps around mod 2 ^ 64. -/
def add64 (a b : Nat) : Nat := (a + b) % U64

/-- C UINT64 subtraction: wraps around mod 2 ^ 64 (for a b < U64). -/
def sub64 (a b : Nat) : Nat := (a + U64 - b % U64) % U64

/-- EFI_PAGE_SIZE from MdePkg. -/
def EFI_PAGE_SIZE : Nat := 0x1000

/-- RUNTIME_PAGE_ALLOCATION_GRANULARITY (X64 / AArch64 value from MdePkg). -/
def RUNTIME_PAGE_ALLOCATION_GRANULARITY : Nat := 0x10000

/-- EFI_MEMORY_RP: read-protected attribute bit. -/
def EFI_MEMORY_RP : Nat := 0x2000

/-- EFI_MEMORY_XP: execute-protected attribute bit. -/
def EFI_MEMORY_XP : Nat := 0x4000

/-- EFI_MEMORY_RO: read-only attribute bit. -/
def EFI_MEMORY_RO : Nat := 0x20000

/-- PE/COFF section characteristic: section contains code. -/
def EFI_IMAGE_SCN_CNT_CODE : Nat := 0x00000020

/-- PE/COFF section characteristic: section contains initialized data. -/
def EFI_IMAGE_SCN_CNT_INITIALIZED_DATA : Nat := 0x00000040

/-- PE/COFF section characteristic: section contains uninitialized data. -/
def EFI_IMAGE_SCN_CNT_UNINITIALIZED_DATA : Nat := 0x00000080

/-- PE/COFF section characteristic: section is executable. -/
def EFI_IMAGE_SCN_MEM_EXECUTE : Nat := 0x20000000

/-- PE/COFF section characteristic: section is writable. -/
def EFI_IMAGE_SCN_MEM_WRITE : Nat := 0x80000000

/-- EFI_SIZE_TO_PAGES: number of 4 KiB pages needed to hold Size bytes. -/
def sizeToPages (size : Nat) : Nat :=
  size / EFI_PAGE_SIZE + (if size % EFI_PAGE_SIZE = 0 then 0 else 1)

/-- ALIGN_VALUE (Value, Alignment): round Value up to a multiple of
Alignment.  The C macro uses a power-of-two mask; for power-of-two
alignments this arithmetic form is the same function, and for
Alignment = 0 both give 0. -/
def alignValue (v a : Nat) : Nat := if a = 0 then 0 else (v + a - 1) / a * a

/-- CHECK_SUBSUMPTION (AStart, AEnd, BStart, BEnd): TRUE if the A interval
subsumes the B interval, i.e. AStart <= BStart and AEnd >= BEnd. -/
def checkSubsumption (aStart aEnd bStart bEnd : Nat) : Bool :=
  decide (aStart ≤ bStart) && decide (aEnd ≥ bEnd)

/-- CHECK_OVERLAP (AStart, AEnd, BStart, BEnd): TRUE if the A and B
intervals are non-empty and overlap. -/
def checkOverlap (aStart aEnd bStart bEnd : Nat) : Bool :=
  decide (aStart < aEnd) && decide (bStart < bEnd) &&
  ((decide (aStart ≤ bStart) && decide (bStart < aEnd)) ||
   (decide (bStart ≤ aStart) && decide (aStart < bEnd)))

/-- MEMORY_PROTECTION_SPECIAL_REGION: a declared special region with its
start, length and the attributes required for it. -/
structure SpecialRegion where
  start : Nat
  length : Nat
  efiAttributes : Nat
deriving DecidableEq

/-- IMAGE_RANGE_DESCRIPTOR payload: base and length of a non-protected
loaded-image range (the C code keeps these in a linked list). -/
structure ImageRangeDescriptor where
  base : Nat
  length : Nat
deriving DecidableEq

/-- EFI_GCD_MEMORY_TYPE: classification of a memory space descriptor. -/
inductive GcdMemoryType where
  | nonExistent
  | reserved
  | systemMemory
  | memoryMappedIo
  | otherGcdType
deriving DecidableEq

/-- EFI_GCD_MEMORY_SPACE_DESCRIPTOR fields used by the audit. -/
structure GcdMemorySpaceDescriptor where
  baseAddress : Nat
  length : Nat
  gcdMemoryType : GcdMemoryType
deriving DecidableEq

/-- The global exemption-source state of the app: mSpecialRegions,
mNonProtectedImageList and mMemorySpaceMap.  In C each is a pointer that
may be NULL; Option.none models the NULL pointer, Option.some a populated
(possibly empty) list. -/
structure AuditState where
  specialRegions : Option (List SpecialRegion)
  nonProtectedImageList : Option (List ImageRangeDescriptor)
  memorySpaceMap : Option (List GcdMemorySpaceDescriptor)
deriving DecidableEq

/-- Loop body of CanRegionBeRWX over mSpecialRegions: some declared
special region with no recorded required attributes subsumes the query. -/
def specialRegionExempts (regions : List SpecialRegion) (address length : Nat) : Bool :=
  regions.any fun r =>
    checkSubsumption r.start (add64 r.start r.length) address (add64 address length) &&
    (r.efiAttributes == 0)

/-- Loop body of CanRegionBeRWX over mNonProtectedImageList: some
non-protected image range subsumes the query. -/
def nonProtectedImageExempts (images : List ImageRangeDescriptor) (address length : Nat) : Bool :=
  images.any fun r =>
    checkSubsumption r.base (add64 r.base r.length) address (add64 address length)

/-- Loop body of CanRegionBeRWX over mMemorySpaceMap: some memory space
descriptor of type non-existent subsumes the query. -/
def memorySpaceExempts (descriptors : List GcdMemorySpaceDescriptor) (address length : Nat) : Bool :=
  descriptors.any fun d =>
    checkSubsumption d.baseAddress (add64 d.baseAddress d.length) address (add64 address length) &&
    (d.gcdMemoryType == GcdMemoryType.nonExistent)

/-- CanRegionBeRWX (DxePagingAuditTestApp.c lines 644-707): decides whether
a region is allowed to be read/write/execute.  Mirrors the C control flow:
an early FALSE when both mNonProtectedImageList and mSpecialRegions are
NULL, then the three subsumption loops in source order. -/
def canRegionBeRWX (s : AuditState) (address length : Nat) : Bool :=
  if s.nonProtectedImageList.isNone && s.specialRegions.isNone then
    false
  else
    (match s.specialRegions with
     | some regions => specialRegionExempts regions address length
     | none => false) ||
    (match s.nonProtectedImageList with
     | some images => nonProtectedImageExempts images address length
     | none => false) ||
    (match s.memorySpaceMap with
     | some descriptors => memorySpaceExempts descriptors address length
     | none => false)

/-- Status values GetRegionAccessAttributes can hand back to the scan loop
of ValidateRegionAttributes: EFI_SUCCESS, EFI_NOT_FOUND (partial match),
EFI_NO_MAPPING, or any other (unexpected) status. -/
inductive QStatus where
  | success
  | notFound
  | noMapping
  | otherStatus
deriving DecidableEq

/-- Result of one GetRegionAccessAttributes query: the status, the
combined attributes of the covered prefix, and how many bytes were
covered. -/
structure QueryResult where
  status : QStatus
  attrs : Nat
  checkedLength : Nat
deriving DecidableEq

/-- The attribute comparison of ValidateRegionAttributes: under match-all
the region must carry every required bit, under match-any at least one. -/
def attrsMismatch (attrs required : Nat) (matchAny : Bool) : Bool :=
  (!matchAny && !(attrs &&& required == required)) ||
  (matchAny && (attrs &&& required == 0))

/-- Scan loop of ValidateRegionAttributes (DxePagingAuditTestApp.c lines
519-593), parameterized over the GetRegionAccessAttributes oracle q.
Each iteration queries the remaining range; EFI_SUCCESS / EFI_NOT_FOUND
lead to the attribute comparison, EFI_NO_MAPPING to the unmapped check,
any other status aborts with failure.  A covered length of 0 aborts with
failure; advancing the address uses SafeUint64Add, and an overflow ends
the loop returning the verdict accumulated so far. -/
def validateRegionLoop (q : Nat → Nat → QueryResult) (required : Nat)
    (matchAny allowUnmapped : Bool) (address length : Nat) (attributesMatch : Bool) : Bool :=
  if (q address length).status = QStatus.success ∨ (q address length).status = QStatus.notFound ∨
      (q address length).status = QStatus.noMapping then
    let am :=
      if (q address length).status = QStatus.success ∨ (q address length).status = QStatus.notFound then
        if attrsMismatch (q address length).attrs required matchAny then false else attributesMatch
      else
        if allowUnmapped then attributesMatch else false
    if (q address length).checkedLength = 0 then
      false
    else if U64 ≤ address + (q address length).checkedLength then
      am
    else if 0 < sub64 length (q address length).checkedLength then
      validateRegionLoop q required matchAny allowUnmapped
        (address + (q address length).checkedLength)
        (sub64 length (q address length).checkedLength) am
    else
      am
  else
    false
termination_by U64 - address
decreasing_by
  simp only [U64] at *
  omega

/-- ValidateRegionAttributes (DxePagingAuditTestApp.c lines 502-596):
runs the scan loop with AttributesMatch initialized to TRUE.  The
LogAttributeMismatch argument of the C function only controls logging and
is not modelled. -/
def validateRegionAttributes (q : Nat → Nat → QueryResult)
    (address length required : Nat) (matchAny allowUnmapped : Bool) : Bool :=
  validateRegionLoop q required matchAny allowUnmapped address length true

/-- Record of one iteration of the scan loop: the address queried, the
covered length the oracle reported, and whether this iteration's own
check (attribute comparison or unmapped check) passed. -/
structure IterLog where
  address : Nat
  checkedLength : Nat
  pass : Bool
deriving DecidableEq

/-- How the scan loop of ValidateRegionAttributes ended: by consuming the
whole requested length, by SafeUint64Add overflow at the top of the
address space, by an unexpected oracle status, or by the zero-progress
abort. -/
inductive ScanEnd where
  | consumedAll
  | overflowEnd
  | abortError
  | abortNoProgress
deriving DecidableEq

/-- TRUE for the two loop exits that are not aborts: full consumption and
address-space overflow. -/
def ScanEnd.completed : ScanEnd → Bool
  | ScanEnd.consumedAll => true
  | ScanEnd.overflowEnd => true
  | _ => false

/-- Iteration-level view of the same scan loop: identical control flow to
validateRegionLoop, but recording every iteration's outcome and the way
the loop ended instead of folding them into one boolean. -/
def scanTrace (q : Nat → Nat → QueryResult) (required : Nat)
    (matchAny allowUnmapped : Bool) (address length : Nat) : List IterLog × ScanEnd :=
  if (q address length).status = QStatus.success ∨ (q address length).status = QStatus.notFound ∨
      (q address length).status = QStatus.noMapping then
    let pass :=
      if (q address length).status = QStatus.success ∨ (q address length).status = QStatus.notFound then
        !(attrsMismatch (q address length).attrs required matchAny)
      else
        allowUnmapped
    if (q address length).checkedLength = 0 then
      ([⟨address, (q address length).checkedLength, pass⟩], ScanEnd.abortNoProgress)
    else if U64 ≤ address + (q address length).checkedLength then
      ([⟨address, (q address length).checkedLength, pass⟩], ScanEnd.overflowEnd)
    else if 0 < sub64 length (q address length).checkedLength then
      let rest := scanTrace q required matchAny allowUnmapped
        (address + (q address length).checkedLength)
        (sub64 length (q address length).checkedLength)
      (⟨address, (q address length).checkedLength, pass⟩ :: rest.1, rest.2)
    else
      ([⟨address, (q address length).checkedLength, pass⟩], ScanEnd.consumedAll)
  else
    ([⟨address, (q address length).checkedLength, false⟩], ScanEnd.abortError)
termination_by U64 - address
decreasing_by
  simp only [U64] at *
  omega

/-- PAGE_MAP global mMap: entry count, allocated pages, and whether the
Entries buffer is non-NULL. -/
structure PageMap where
  entryCount : Nat
  entryPagesAllocated : Nat
  allocated : Bool
deriving DecidableEq

/-- EFI status values the table-management functions return. -/
inductive EfiStatus where
  | success
  | bufferTooSmall
  | invalidParameter
  | aborted
  | outOfResources
deriving DecidableEq

/-- Modelled from the spec: CreateFlatPageTable of FlatPageTableLib is not
part of the audited source; the spec describes it as the two-phase
size-then-fill producer BuildRangeTable.  With requiredCount the entry
count the platform's translation structure needs, a call whose buffer is
absent or can hold fewer than requiredCount entries fails with
EFI_BUFFER_TOO_SMALL and reports requiredCount in EntryCount; otherwise it
fills the buffer and reports the entries written. -/
def createFlatPageTable (requiredCount : Nat) (m : PageMap) : EfiStatus × PageMap :=
  if !m.allocated || m.entryCount < requiredCount then
    (EfiStatus.bufferTooSmall, { m with entryCount := requiredCount })
  else
    (EfiStatus.success, { m with entryCount := requiredCount })

/-- PopulatePageTableMap (DxePagingAuditTestApp.c lines 140-155),
parameterized over the producer it re-invokes: EFI_INVALID_PARAMETER
when the buffer is NULL or the entry count is 0; otherwise the maximum
entry count the allocation can hold is recomputed and the producer is
invoked on it (the ZeroMem of the buffer contents is not modelled).
entrySize is sizeof (PAGE_MAP_ENTRY). -/
def populatePageTableMap (entrySize : Nat) (create : PageMap → EfiStatus × PageMap)
    (m : PageMap) : EfiStatus × PageMap :=
  if !m.allocated || m.entryCount == 0 then
    (EfiStatus.invalidParameter, m)
  else
    create { m with entryCount := m.entryPagesAllocated * EFI_PAGE_SIZE / entrySize }

/-- ValidatePageTableMapSize (DxePagingAuditTestApp.c lines 164-197):
probes the producer with an empty buffer, expects EFI_BUFFER_TOO_SMALL
carrying the required entry count, and if the pages that count needs are
at least the current allocation, frees the map and reallocates for
requiredCount + requiredCount / 5 entries rounded up to whole pages
(AllocatePages is modelled as succeeding). -/
def validatePageTableMapSize (entrySize requiredCount : Nat) (m : PageMap) : EfiStatus × PageMap :=
  let probe := createFlatPageTable requiredCount
    { entryCount := 0, entryPagesAllocated := 0, allocated := false }
  if probe.1 ≠ EfiStatus.bufferTooSmall then
    (EfiStatus.aborted, m)
  else
    let neededPages := sizeToPages (probe.2.entryCount * entrySize)
    if m.entryPagesAllocated ≤ neededPages then
      let newCount := probe.2.entryCount + probe.2.entryCount / 5
      (EfiStatus.success,
        { entryCount := newCount,
          entryPagesAllocated := sizeToPages (newCount * entrySize),
          allocated := true })
    else
      (EfiStatus.success, m)

/-- EFI_MEMORY_TYPE values distinguished by IsLoadedImageSectionAligned. -/
inductive EfiMemoryType where
  | runtimeServicesCode
  | acpiMemoryNVS
  | runtimeServicesData
  | acpiReclaimMemory
  | bootServicesCode
  | loaderCode
  | reservedMemoryType
  | otherMemoryType
deriving DecidableEq

/-- Page-allocation granularity IsLoadedImageSectionAligned selects for an
image memory type (the runtime-data cases are ASSERT (FALSE) paths in C
that still fall through to the runtime granularity). -/
def imageMemoryTypePageAlignment : EfiMemoryType → Nat
  | EfiMemoryType.runtimeServicesCode => RUNTIME_PAGE_ALLOCATION_GRANULARITY
  | EfiMemoryType.acpiMemoryNVS => RUNTIME_PAGE_ALLOCATION_GRANULARITY
  | EfiMemoryType.runtimeServicesData => RUNTIME_PAGE_ALLOCATION_GRANULARITY
  | EfiMemoryType.acpiReclaimMemory => RUNTIME_PAGE_ALLOCATION_GRANULARITY
  | _ => EFI_PAGE_SIZE

/-- IsLoadedImageSectionAligned (DxePagingAuditTestApp.c lines 77-111):
the PE section alignment must be a multiple of the page-allocation
granularity of the image's memory type (the C bit test against the
power-of-two granularity minus one is the mod test). -/
def isLoadedImageSectionAligned (sectionAlignment : Nat) (memoryType : EfiMemoryType) : Bool :=
  sectionAlignment % imageMemoryTypePageAlignment memoryType == 0

/-- EFI_IMAGE_SECTION_HEADER fields used by the section check. -/
structure SectionInfo where
  virtualAddress : Nat
  sizeOfRawData : Nat
  characteristics : Nat
deriving DecidableEq

/-- A loaded image as the section check consumes it: base address,
PE section alignment, image code memory type, and its section headers. -/
structure ImageInfo where
  imageBase : Nat
  sectionAlignment : Nat
  imageCodeType : EfiMemoryType
  sections : List SectionInfo
deriving DecidableEq

/-- Per-section body of ImageCodeSectionsRoDataSectionsXp
(DxePagingAuditTestApp.c lines 1199-1256): TRUE when the section makes the
test fail.  A section that contains code together with initialized or
uninitialized data fails outright; an execute-only (not writable) section
must be exactly EFI_MEMORY_RO; every other section must be exactly
EFI_MEMORY_XP. -/
def sectionCheckFails (q : Nat → Nat → QueryResult)
    (imageBase sectionAlignment : Nat) (s : SectionInfo) : Bool :=
  let sectionStart := add64 imageBase s.virtualAddress
  let sectionEnd := add64 sectionStart (alignValue s.sizeOfRawData sectionAlignment)
  if (s.characteristics &&& EFI_IMAGE_SCN_CNT_CODE != 0) &&
      (s.characteristics &&&
        (EFI_IMAGE_SCN_CNT_INITIALIZED_DATA ||| EFI_IMAGE_SCN_CNT_UNINITIALIZED_DATA) != 0) then
    true
  else if s.characteristics &&& (EFI_IMAGE_SCN_MEM_WRITE ||| EFI_IMAGE_SCN_MEM_EXECUTE) ==
      EFI_IMAGE_SCN_MEM_EXECUTE then
    !(validateRegionAttributes q sectionStart (sub64 sectionEnd sectionStart) EFI_MEMORY_RO false false)
  else
    !(validateRegionAttributes q sectionStart (sub64 sectionEnd sectionStart) EFI_MEMORY_XP false false)

/-- Per-image body of ImageCodeSectionsRoDataSectionsXp
(DxePagingAuditTestApp.c lines 1180-1256): TRUE when the image makes the
test fail.  A misaligned image fails immediately and its section loop is
skipped (the C continue); otherwise the image fails iff some section
fails. -/
def imageCheckFails (q : Nat → Nat → QueryResult) (img : ImageInfo) : Bool :=
  if !(isLoadedImageSectionAligned img.sectionAlignment img.imageCodeType) then
    true
  else
    img.sections.any (sectionCheckFails q img.imageBase img.sectionAlignment)

/-- EFI_MEMORY_DESCRIPTOR fields used by the audit. -/
structure EfiMemoryDescriptor where
  memType : Nat
  physicalStart : Nat
  numberOfPages : Nat
deriving DecidableEq

/-- Gap validation used by MemoryOutsideEfiMemoryMapIsInaccessible: the
gap must be EFI_MEMORY_RP (match-any) or unmapped. -/
def validateGapIsRP (q : Nat → Nat → QueryResult) (start len : Nat) : Bool :=
  validateRegionAttributes q start len EFI_MEMORY_RP true true

/-- While loop of MemoryOutsideEfiMemoryMapIsInaccessible
(DxePagingAuditTestApp.c lines 1409-1428): walks the remaining EFI memory
map entries, validating the gap before each entry, and returns the end of
the last entry together with the accumulated failure flag. -/
def memoryOutsideLoop (q : Nat → Nat → QueryResult)
    (entries : List EfiMemoryDescriptor) (lastEnd : Nat) (testFailure : Bool) : Nat × Bool :=
  match entries with
  | [] => (lastEnd, testFailure)
  | e :: rest =>
      let fail := if lastEnd < e.physicalStart &&
          !(validateGapIsRP q lastEnd (e.physicalStart - lastEnd)) then true else testFailure
      memoryOutsideLoop q rest (add64 e.physicalStart (e.numberOfPages * EFI_PAGE_SIZE)) fail

/-- MemoryOutsideEfiMemoryMapIsInaccessible (DxePagingAuditTestApp.c lines
1363-1448).  The C body reads mMemorySpaceMap[0],
mMemorySpaceMap[mMemorySpaceMapCount - 1] and the first EFI memory map
descriptor before any emptiness test; the embedding surfaces those three
accesses through head? / getLast?, and none models the out-of-bounds read
an empty inventory would cause.  When both inventories are non-empty the
verdict is some of the check's pass/fail result. -/
def memoryOutsideEfiMemoryMapIsInaccessible (q : Nat → Nat → QueryResult)
    (memorySpaceMap : List GcdMemorySpaceDescriptor)
    (efiMemoryMap : List EfiMemoryDescriptor) : Option Bool :=
  match memorySpaceMap.head?, memorySpaceMap.getLast?, efiMemoryMap.head? with
  | some firstDesc, some lastDesc, some firstEntry =>
      let startOfAddressSpace := firstDesc.baseAddress
      let endOfAddressSpace := add64 lastDesc.baseAddress lastDesc.length
      let fail0 : Bool :=
        decide (startOfAddressSpace < firstEntry.physicalStart) &&
          !(validateGapIsRP q startOfAddressSpace (firstEntry.physicalStart - startOfAddressSpace))
      let walk := memoryOutsideLoop q efiMemoryMap.tail
        (add64 firstEntry.physicalStart (firstEntry.numberOfPages * EFI_PAGE_SIZE)) fail0
      let fail1 : Bool :=
        if walk.1 < endOfAddressSpace && !(validateGapIsRP q walk.1 (endOfAddressSpace - walk.1)) then
          true
        else
          walk.2
      some (!fail1)
  | _, _, _ => none

/-- Characterization of CanRegionBeRWX: it returns TRUE exactly when the
early NULL-NULL guard does not fire and one of the three exemption
sources holds an entry whose interval subsumes the query (with the
source's side condition: zero recorded attributes for special regions,
non-existent type for memory space descriptors). -/
theorem canRegionBeRWX_eq_true_iff (s : AuditState) (a n : Nat) :
    canRegionBeRWX s a n = true ↔
      (s.nonProtectedImageList ≠ none ∨ s.specialRegions ≠ none) ∧
      ((∃ l, s.specialRegions = some l ∧ ∃ r ∈ l,
          r.start ≤ a ∧ add64 a n ≤ add64 r.start r.length ∧ r.efiAttributes = 0) ∨
       (∃ l, s.nonProtectedImageList = some l ∧ ∃ r ∈ l,
          r.base ≤ a ∧ add64 a n ≤ add64 r.base r.length) ∨
       (∃ l, s.memorySpaceMap = some l ∧ ∃ d ∈ l,
          d.baseAddress ≤ a ∧ add64 a n ≤ add64 d.baseAddress d.length ∧
          d.gcdMemoryType = GcdMemoryType.nonExistent)) := by
  obtain ⟨sp, np, msm⟩ := s
  simp only [canRegionBeRWX, specialRegionExempts, nonProtectedImageExempts,
    memorySpaceExempts, checkSubsumption]
  cases sp <;> cases np <;> cases msm <;>
    simp [List.any_eq_true, ge_iff_le, and_assoc, and_comm, and_left_comm, or_comm,
      or_left_comm, or_assoc]

/-- C1 (amended): CanRegionBeRWX returns true iff the early guard does not
fire (at least one of the special-region list or the non-protected-image
list is populated) and one of the three exemption sources fully subsumes
the queried range; when both the special-region list and the
non-protected-image list are unpopulated it returns false regardless of
the memory-space map, so in particular it returns false whenever none of
the three exemption sources is populated. -/
theorem c1_canRegionBeRWX_exemption (s : AuditState) (a n : Nat) :
    (canRegionBeRWX s a n = true ↔
      (s.nonProtectedImageList ≠ none ∨ s.specialRegions ≠ none) ∧
      ((∃ l, s.specialRegions = some l ∧ ∃ r ∈ l,
          r.start ≤ a ∧ add64 a n ≤ add64 r.start r.length ∧ r.efiAttributes = 0) ∨
       (∃ l, s.nonProtectedImageList = some l ∧ ∃ r ∈ l,
          r.base ≤ a ∧ add64 a n ≤ add64 r.base r.length) ∨
       (∃ l, s.memorySpaceMap = some l ∧ ∃ d ∈ l,
          d.baseAddress ≤ a ∧ add64 a n ≤ add64 d.baseAddress d.length ∧
          d.gcdMemoryType = GcdMemoryType.nonExistent))) ∧
    (s.specialRegions = none → s.nonProtectedImageList = none → canRegionBeRWX s a n = false) := by
  refine ⟨canRegionBeRWX_eq_true_iff s a n, fun h1 h2 => ?_⟩
  simp [canRegionBeRWX, h1, h2]

/-- C1 counterexample: a memory-space descriptor of type non-existent
fully subsumes the query, but because the special-region list and the
non-protected-image list are both unpopulated CanRegionBeRWX returns
false, not true. -/
theorem c1_counterexample :
    checkSubsumption 0 (add64 0 0x2000) 0x1000 (add64 0x1000 0x1000) = true ∧
    canRegionBeRWX ⟨none, none, some [⟨0, 0x2000, GcdMemoryType.nonExistent⟩]⟩
      0x1000 0x1000 = false := by
  decide

/-- C2: exemption is decided by strict interval subsumption, never by mere
overlap.  CHECK_SUBSUMPTION holds iff e0 <= q0 and e1 >= q1; CanRegionBeRWX
returns true only through a subsuming entry of one of the three sources;
and the regression pair (exemption interval of all three sources [0,100),
query [50,150)) overlaps without containing and is not exempted, while the
contained query [50,100) is. -/
theorem c2_subsumption_strict :
    (∀ e0 e1 q0 q1 : Nat, checkSubsumption e0 e1 q0 q1 = true ↔ e0 ≤ q0 ∧ q1 ≤ e1) ∧
    (∀ (s : AuditState) (a n : Nat), canRegionBeRWX s a n = true ↔
      (s.nonProtectedImageList ≠ none ∨ s.specialRegions ≠ none) ∧
      ((∃ l, s.specialRegions = some l ∧ ∃ r ∈ l,
          r.start ≤ a ∧ add64 a n ≤ add64 r.start r.length ∧ r.efiAttributes = 0) ∨
       (∃ l, s.nonProtectedImageList = some l ∧ ∃ r ∈ l,
          r.base ≤ a ∧ add64 a n ≤ add64 r.base r.length) ∨
       (∃ l, s.memorySpaceMap = some l ∧ ∃ d ∈ l,
          d.baseAddress ≤ a ∧ add64 a n ≤ add64 d.baseAddress d.length ∧
          d.gcdMemoryType = GcdMemoryType.nonExistent))) ∧
    (checkOverlap 0 100 50 150 = true ∧
     canRegionBeRWX ⟨some [⟨0, 100, 0⟩], some [⟨0, 100⟩],
       some [⟨0, 100, GcdMemoryType.nonExistent⟩]⟩ 50 100 = false ∧
     canRegionBeRWX ⟨some [⟨0, 100, 0⟩], some [⟨0, 100⟩],
       some [⟨0, 100, GcdMemoryType.nonExistent⟩]⟩ 50 50 = true) := by
  refine ⟨fun e0 e1 q0 q1 => ?_, canRegionBeRWX_eq_true_iff, by decide⟩
  simp [checkSubsumption, ge_iff_le]

/-- C10 (amended): for a zero-length query subsumption degenerates to
containment of the single address (CHECK_SUBSUMPTION e0 e1 a a holds iff
e0 <= a <= e1), so whenever the early guard does not fire, an exemption
entry of any of the three sources whose interval contains the address
(with the source's side condition) makes CanRegionBeRWX report the
degenerate region [a, a) as RWX-permitted without any byte being
covered. -/
theorem c10_zero_length_exemption :
    (∀ e0 e1 a : Nat, checkSubsumption e0 e1 a a = true ↔ e0 ≤ a ∧ a ≤ e1) ∧
    (∀ (s : AuditState) (a : Nat), a < U64 →
      (s.nonProtectedImageList ≠ none ∨ s.specialRegions ≠ none) →
      ((∃ l, s.specialRegions = some l ∧ ∃ r ∈ l,
          r.efiAttributes = 0 ∧ r.start ≤ a ∧ a ≤ add64 r.start r.length) ∨
       (∃ l, s.nonProtectedImageList = some l ∧ ∃ r ∈ l,
          r.base ≤ a ∧ a ≤ add64 r.base r.length) ∨
       (∃ l, s.memorySpaceMap = some l ∧ ∃ d ∈ l,
          d.gcdMemoryType = GcdMemoryType.nonExistent ∧ d.baseAddress ≤ a ∧
          a ≤ add64 d.baseAddress d.length)) →
      canRegionBeRWX s a 0 = true) := by
  constructor
  · intro e0 e1 a
    simp [checkSubsumption, ge_iff_le]
  · intro s a ha hguard hsrc
    rw [canRegionBeRWX_eq_true_iff]
    have hzero : add64 a 0 = a := by
      simp [add64, Nat.mod_eq_of_lt ha]
    refine ⟨hguard, ?_⟩
    rw [hzero]
    rcases hsrc with ⟨l, hl, r, hr, h1, h2, h3⟩ | ⟨l, hl, r, hr, h1, h2⟩ |
      ⟨l, hl, d, hd, h1, h2, h3⟩
    · exact Or.inl ⟨l, hl, r, hr, h2, h3, h1⟩
    · exact Or.inr (Or.inl ⟨l, hl, r, hr, h1, h2⟩)
    · exact Or.inr (Or.inr ⟨l, hl, d, hd, h2, h3, h1⟩)

/-- C10 witness: a populated special region with zero recorded attributes
whose interval contains the address makes the zero-length query
RWX-permitted. -/
theorem c10_witness :
    canRegionBeRWX ⟨some [⟨0x1000, 0x1000, 0⟩], none, none⟩ 0x1800 0 = true :=
  c10_zero_length_exemption.2 ⟨some [⟨0x1000, 0x1000, 0⟩], none, none⟩ 0x1800
    (by decide) (Or.inr (by simp))
    (Or.inl ⟨[⟨0x1000, 0x1000, 0⟩], rfl, ⟨0x1000, 0x1000, 0⟩, by simp, rfl,
      by decide, by decide⟩)

/-- C10 counterexample: an exemption interval (a non-existent memory-space
descriptor) contains the queried address, but with the special-region list
and the non-protected-image list both unpopulated the zero-length query is
not reported RWX-permitted. -/
theorem c10_counterexample :
    checkSubsumption 0 (add64 0 0x1000) 0x500 (add64 0x500 0) = true ∧
    canRegionBeRWX ⟨none, none, some [⟨0, 0x1000, GcdMemoryType.nonExistent⟩]⟩
      0x500 0 = false := by
  decide

/-- Case split of ScanEnd.completed: the scan completed exactly when it
ended by full consumption or by address-space overflow. -/
theorem ScanEnd.completed_iff (e : ScanEnd) :
    e.completed = true ↔ (e = ScanEnd.consumedAll ∨ e = ScanEnd.overflowEnd) := by
  cases e <;> simp [ScanEnd.completed]

/-- The scan loop folds exactly the iteration outcomes of its trace: the
result is the initial flag AND every iteration's own check AND the loop
ending in a non-abort way (auxiliary induction on an upper bound of the
remaining address space). -/
theorem validateRegionLoop_eq_trace_aux (q : Nat → Nat → QueryResult) (required : Nat)
    (ma au : Bool) :
    ∀ (k address length : Nat) (am : Bool), U64 - address < k →
      validateRegionLoop q required ma au address length am =
        (am && ((scanTrace q required ma au address length).1.all IterLog.pass &&
          (scanTrace q required ma au address length).2.completed)) := by
  intro k
  induction k with
  | zero =>
      intro address length am h
      exact absurd h (by omega)
  | succ k ih =>
      intro address length am h
      rw [validateRegionLoop.eq_def, scanTrace.eq_def]
      by_cases h1 : (q address length).status = QStatus.success ∨
          (q address length).status = QStatus.notFound ∨
          (q address length).status = QStatus.noMapping
      · simp only [if_pos h1]
        by_cases h2 : (q address length).checkedLength = 0
        · simp [h2, ScanEnd.completed]
        · by_cases h3 : U64 ≤ address + (q address length).checkedLength
          · simp only [if_neg h2, if_pos h3]
            by_cases h5 : (q address length).status = QStatus.success ∨
                (q address length).status = QStatus.notFound
            · cases h6 : attrsMismatch (q address length).attrs required ma <;>
                simp [h5, h6, ScanEnd.completed]
            · cases au <;> simp [h5, ScanEnd.completed]
          · by_cases h4 : 0 < sub64 length (q address length).checkedLength
            · simp only [if_neg h2, if_neg h3, if_pos h4]
              rw [ih (address + (q address length).checkedLength)
                (sub64 length (q address length).checkedLength) _ (by omega)]
              by_cases h5 : (q address length).status = QStatus.success ∨
                  (q address length).status = QStatus.notFound
              · cases h6 : attrsMismatch (q address length).attrs required ma <;>
                  simp [h5, h6, Bool.and_assoc, Bool.and_comm, Bool.and_left_comm]
              · cases au <;>
                  simp [h5, Bool.and_assoc, Bool.and_comm, Bool.and_left_comm]
            · simp only [if_neg h2, if_neg h3, if_neg h4]
              by_cases h5 : (q address length).status = QStatus.success ∨
                  (q address length).status = QStatus.notFound
              · cases h6 : attrsMismatch (q address length).attrs required ma <;>
                  simp [h5, h6, ScanEnd.completed]
              · cases au <;> simp [h5, ScanEnd.completed]
      · simp [h1, ScanEnd.completed]

/-- Closed form of the loop-trace correspondence. -/
theorem validateRegionLoop_eq_trace (q : Nat → Nat → QueryResult) (required : Nat)
    (ma au : Bool) (address length : Nat) (am : Bool) :
    validateRegionLoop q required ma au address length am =
      (am && ((scanTrace q required ma au address length).1.all IterLog.pass &&
        (scanTrace q required ma au address length).2.completed)) :=
  validateRegionLoop_eq_trace_aux q required ma au (U64 - address + 1) address length am
    (by omega)

/-- The scan footprint (which sub-ranges are visited and how the loop
ends) does not depend on the required attributes, the match mode or the
unmapped policy: outcomes of the per-iteration checks never make the loop
return early. -/
theorem scanTrace_footprint_aux (q : Nat → Nat → QueryResult) :
    ∀ (k address length required : Nat) (ma au : Bool) (required2 : Nat) (ma2 au2 : Bool),
      U64 - address < k →
      (scanTrace q required ma au address length).1.map (fun i => (i.address, i.checkedLength)) =
        (scanTrace q required2 ma2 au2 address length).1.map (fun i => (i.address, i.checkedLength)) ∧
      (scanTrace q required ma au address length).2 =
        (scanTrace q required2 ma2 au2 address length).2 := by
  intro k
  induction k with
  | zero =>
      intro address length required ma au required2 ma2 au2 h
      exact absurd h (by omega)
  | succ k ih =>
      intro address length required ma au required2 ma2 au2 h
      rw [scanTrace.eq_def q required ma au address length,
        scanTrace.eq_def q required2 ma2 au2 address length]
      by_cases h1 : (q address length).status = QStatus.success ∨
          (q address length).status = QStatus.notFound ∨
          (q address length).status = QStatus.noMapping
      · by_cases h2 : (q address length).checkedLength = 0
        · simp [h1, h2]
        · by_cases h3 : U64 ≤ address + (q address length).checkedLength
          · simp [h1, h2, h3]
          · by_cases h4 : 0 < sub64 length (q address length).checkedLength
            · have hrec := ih (address + (q address length).checkedLength)
                (sub64 length (q address length).checkedLength) required ma au
                required2 ma2 au2 (by omega)
              simp only [if_pos h1, if_neg h2, if_neg h3, if_pos h4, List.map_cons]
              exact ⟨by rw [hrec.1], hrec.2⟩
            · simp [h1, h2, h3, h4]
      · simp [h1]

/-- C3 (amended): the scan loop of ValidateRegionAttributes aborts with a
failing verdict already on the first iteration whose reported covered
length is 0 (so two consecutive zero-progress iterations never occur):
the whole call returns false, and when the query status is one the loop
handles, the trace ends as a no-progress abort right after that single
iteration. -/
theorem c3_zero_progress_aborts (q : Nat → Nat → QueryResult)
    (a l required : Nat) (ma au : Bool)
    (hcl : (q a l).checkedLength = 0) :
    validateRegionAttributes q a l required ma au = false ∧
    ((q a l).status = QStatus.success ∨ (q a l).status = QStatus.notFound ∨
        (q a l).status = QStatus.noMapping →
      (scanTrace q required ma au a l).2 = ScanEnd.abortNoProgress ∧
      (scanTrace q required ma au a l).1.length = 1) := by
  constructor
  · rw [validateRegionAttributes, validateRegionLoop.eq_def]
    by_cases h1 : (q a l).status = QStatus.success ∨ (q a l).status = QStatus.notFound ∨
        (q a l).status = QStatus.noMapping
    · simp [h1, hcl]
    · simp [h1]
  · intro h1
    rw [scanTrace.eq_def]
    simp [h1, hcl]

/-- C3 witness: a concrete oracle that reports covered length 0 makes the
scan fail on its single iteration. -/
theorem c3_witness :
    validateRegionAttributes (fun _ _ => ⟨QStatus.success, 0x2000, 0⟩) 0 0x1000 0x2000 true true
      = false ∧
    (scanTrace (fun _ _ => ⟨QStatus.success, 0x2000, 0⟩) 0x2000 true true 0 0x1000).2 =
      ScanEnd.abortNoProgress :=
  have h := c3_zero_progress_aborts (fun _ _ => ⟨QStatus.success, 0x2000, 0⟩)
    0 0x1000 0x2000 true true rfl
  ⟨h.1, (h.2 (Or.inl rfl)).1⟩

/-- C3 counterexample: one single iteration reporting covered length 0 —
whose own attribute check passes — aborts the scan with a failing verdict,
refuting that only two consecutive zero-progress iterations abort. -/
theorem c3_counterexample :
    validateRegionAttributes (fun _ _ => ⟨QStatus.success, 0x2000, 0⟩) 0 0x1000 0x2000 true true
      = false ∧
    (scanTrace (fun _ _ => ⟨QStatus.success, 0x2000, 0⟩) 0x2000 true true 0 0x1000).1 =
      [⟨0, 0, true⟩] ∧
    (scanTrace (fun _ _ => ⟨QStatus.success, 0x2000, 0⟩) 0x2000 true true 0 0x1000).2 =
      ScanEnd.abortNoProgress := by
  refine ⟨?_, ?_, ?_⟩
  · rw [validateRegionAttributes, validateRegionLoop.eq_def]
    simp [attrsMismatch]
  · rw [scanTrace.eq_def]
    simp [attrsMismatch]
  · rw [scanTrace.eq_def]
    simp

/-- C4 (amended): ValidateRegionAttributes aggregates all sub-range checks
of one call: it returns true iff every scanned sub-range passed its own
check and the scan ended by consuming the full requested length or by
reaching the top of the 64-bit address space (not by an abort); and a
mismatch never ends the scan early, since which sub-ranges are visited and
how the loop ends do not depend on the required attributes, the match
mode, or the unmapped policy. -/
theorem c4_validate_aggregates (q : Nat → Nat → QueryResult) (a l required : Nat)
    (ma au : Bool) :
    (validateRegionAttributes q a l required ma au = true ↔
      ((scanTrace q required ma au a l).1.all IterLog.pass = true ∧
       ((scanTrace q required ma au a l).2 = ScanEnd.consumedAll ∨
        (scanTrace q required ma au a l).2 = ScanEnd.overflowEnd))) ∧
    (∀ (required2 : Nat) (ma2 au2 : Bool),
      (scanTrace q required ma au a l).1.map (fun i => (i.address, i.checkedLength)) =
        (scanTrace q required2 ma2 au2 a l).1.map (fun i => (i.address, i.checkedLength)) ∧
      (scanTrace q required ma au a l).2 = (scanTrace q required2 ma2 au2 a l).2) := by
  constructor
  · rw [validateRegionAttributes, validateRegionLoop_eq_trace, ← ScanEnd.completed_iff]
    simp
  · intro required2 ma2 au2
    exact scanTrace_footprint_aux q (U64 - a + 1) a l required ma au required2 ma2 au2 (by omega)

/-- C4 counterexample: a region of 0x2000 bytes whose first 0x1000 bytes
end exactly at the top of the address space is validated true after
covering only those 0x1000 bytes — the call returns true although the
full requested length was not consumed, refuting the claimed
returns-true-iff-full-length-consumed equivalence. -/
theorem c4_counterexample :
    validateRegionAttributes (fun _ _ => ⟨QStatus.success, 0x2000, 0x1000⟩)
      (U64 - 0x1000) 0x2000 0x2000 true true = true ∧
    (scanTrace (fun _ _ => ⟨QStatus.success, 0x2000, 0x1000⟩) 0x2000 true true
      (U64 - 0x1000) 0x2000).1 = [⟨U64 - 0x1000, 0x1000, true⟩] ∧
    (scanTrace (fun _ _ => ⟨QStatus.success, 0x2000, 0x1000⟩) 0x2000 true true
      (U64 - 0x1000) 0x2000).2 = ScanEnd.overflowEnd := by
  refine ⟨?_, ?_, ?_⟩
  · rw [validateRegionAttributes, validateRegionLoop.eq_def]
    norm_num [attrsMismatch, U64]
  · rw [scanTrace.eq_def]
    norm_num [attrsMismatch, U64]
  · rw [scanTrace.eq_def]
    norm_num [U64]

/-- C5: the scan address advances by the covered length through checked
64-bit addition.  When the addition would overflow past the top of the
address space the loop terminates returning the verdict as updated by the
current iteration's own check — overflow itself never sets the verdict to
failure; when it does not overflow and length remains, the loop continues
at exactly address + coveredLength. -/
theorem c5_overflow_keeps_verdict (q : Nat → Nat → QueryResult) (required : Nat)
    (ma au : Bool) (a l : Nat) (am : Bool)
    (h1 : (q a l).status = QStatus.success ∨ (q a l).status = QStatus.notFound ∨
      (q a l).status = QStatus.noMapping)
    (h2 : (q a l).checkedLength ≠ 0) :
    (U64 ≤ a + (q a l).checkedLength →
      validateRegionLoop q required ma au a l am =
        (if (q a l).status = QStatus.success ∨ (q a l).status = QStatus.notFound then
          (if attrsMismatch (q a l).attrs required ma then false else am)
        else (if au then am else false))) ∧
    (¬ U64 ≤ a + (q a l).checkedLength → 0 < sub64 l (q a l).checkedLength →
      validateRegionLoop q required ma au a l am =
        validateRegionLoop q required ma au (a + (q a l).checkedLength)
          (sub64 l (q a l).checkedLength)
          (if (q a l).status = QStatus.success ∨ (q a l).status = QStatus.notFound then
            (if attrsMismatch (q a l).attrs required ma then false else am)
          else (if au then am else false))) := by
  constructor
  · intro h3
    rw [validateRegionLoop.eq_def]
    simp [h1, h2, h3]
  · intro h3 h4
    conv_lhs => rw [validateRegionLoop.eq_def]
    simp [h1, h2, h3, h4]

/-- C5 witness: with a passing iteration whose covered length reaches
exactly the top of the address space, the loop ends with the accumulated
verdict true. -/
theorem c5_witness :
    validateRegionLoop (fun _ _ => ⟨QStatus.success, 0x2000, 0x1000⟩) 0x2000 true true
      (U64 - 0x1000) 0x1000 true = true :=
  ((c5_overflow_keeps_verdict (fun _ _ => ⟨QStatus.success, 0x2000, 0x1000⟩) 0x2000
    true true (U64 - 0x1000) 0x1000 true (Or.inl rfl) (by decide)).1 (by decide)).trans
    (by decide)

/-- Ceiling property of EFI_SIZE_TO_PAGES: the pages it returns hold at
least the requested size. -/
theorem le_sizeToPages_mul (s : Nat) : s ≤ sizeToPages s * EFI_PAGE_SIZE := by
  simp only [sizeToPages, EFI_PAGE_SIZE]
  by_cases h : s % 4096 = 0 <;> simp [h] <;> omega

/-- C6: when the sizing probe reports requiredCount entries and the
current allocation is not larger than what requiredCount requires,
ValidatePageTableMapSize reallocates to requiredCount + requiredCount / 5
entries rounded up to whole pages, the new allocation holds at least that
many entries, and a subsequent populate-and-fill succeeds without a
second buffer-too-small signal. -/
theorem c6_growth_protocol (entrySize requiredCount : Nat) (m : PageMap)
    (hsz : 0 < entrySize) (hrc : 0 < requiredCount)
    (hneed : m.entryPagesAllocated ≤ sizeToPages (requiredCount * entrySize)) :
    (validatePageTableMapSize entrySize requiredCount m).1 = EfiStatus.success ∧
    (validatePageTableMapSize entrySize requiredCount m).2.allocated = true ∧
    requiredCount + requiredCount / 5 ≤
      (validatePageTableMapSize entrySize requiredCount m).2.entryPagesAllocated *
        EFI_PAGE_SIZE / entrySize ∧
    (populatePageTableMap entrySize (createFlatPageTable requiredCount)
      (validatePageTableMapSize entrySize requiredCount m).2).1 = EfiStatus.success := by
  have hmain : validatePageTableMapSize entrySize requiredCount m =
      (EfiStatus.success,
        { entryCount := requiredCount + requiredCount / 5,
          entryPagesAllocated := sizeToPages ((requiredCount + requiredCount / 5) * entrySize),
          allocated := true }) := by
    simp [validatePageTableMapSize, createFlatPageTable, hneed]
  have hcap : requiredCount + requiredCount / 5 ≤
      sizeToPages ((requiredCount + requiredCount / 5) * entrySize) * EFI_PAGE_SIZE / entrySize := by
    have h1 := le_sizeToPages_mul ((requiredCount + requiredCount / 5) * entrySize)
    calc requiredCount + requiredCount / 5
        = (requiredCount + requiredCount / 5) * entrySize / entrySize := by
          rw [Nat.mul_div_cancel _ hsz]
      _ ≤ _ := Nat.div_le_div_right h1
  rw [hmain]
  refine ⟨rfl, rfl, hcap, ?_⟩
  have hne : requiredCount + requiredCount / 5 ≠ 0 := by omega
  have hge : requiredCount ≤
      sizeToPages ((requiredCount + requiredCount / 5) * entrySize) * EFI_PAGE_SIZE / entrySize :=
    le_trans (Nat.le_add_right _ _) hcap
  simp [populatePageTableMap, createFlatPageTable, hne, Nat.not_lt.mpr hge]

/-- C6 witness: the spec's example with 32-byte entries — a probe
reporting 1000 required entries against a table sized for 500 (4 pages)
reallocates, holds at least 1200 entries, and the fill succeeds. -/
theorem c6_witness :
    (validatePageTableMapSize 32 1000 ⟨500, 4, true⟩).1 = EfiStatus.success ∧
    (validatePageTableMapSize 32 1000 ⟨500, 4, true⟩).2.allocated = true ∧
    1000 + 1000 / 5 ≤
      (validatePageTableMapSize 32 1000 ⟨500, 4, true⟩).2.entryPagesAllocated *
        EFI_PAGE_SIZE / 32 ∧
    (populatePageTableMap 32 (createFlatPageTable 1000)
      (validatePageTableMapSize 32 1000 ⟨500, 4, true⟩).2).1 = EfiStatus.success :=
  c6_growth_protocol 32 1000 ⟨500, 4, true⟩ (by decide) (by decide) (by decide)

/-- C7: PopulatePageTableMap fails with the invalid-parameter
(allocation-too-small) error, leaving the map untouched and never invoking
the producer, whenever no non-empty allocation exists (buffer NULL or
entry count 0); otherwise it recomputes the maximum entry count the
allocation can hold and hands the map to the producer to fill. -/
theorem c7_populate_requires_allocation (entrySize : Nat)
    (create : PageMap → EfiStatus × PageMap) (m : PageMap) :
    (m.allocated = false ∨ m.entryCount = 0 →
      populatePageTableMap entrySize create m = (EfiStatus.invalidParameter, m)) ∧
    (m.allocated = true → m.entryCount ≠ 0 →
      populatePageTableMap entrySize create m =
        create { m with entryCount := m.entryPagesAllocated * EFI_PAGE_SIZE / entrySize }) := by
  constructor
  · rintro (h | h) <;> simp [populatePageTableMap, h]
  · intro h1 h2
    simp [populatePageTableMap, h1, h2]

/-- C7 witness: the error case at an unallocated map and the success case
handing the recomputed capacity (1 page of 32-byte entries = 128) to the
producer. -/
theorem c7_witness :
    populatePageTableMap 32 (fun mm => (EfiStatus.success, mm)) ⟨0, 0, false⟩ =
      (EfiStatus.invalidParameter, ⟨0, 0, false⟩) ∧
    populatePageTableMap 32 (fun mm => (EfiStatus.success, mm)) ⟨100, 1, true⟩ =
      (EfiStatus.success, ⟨128, 1, true⟩) :=
  ⟨(c7_populate_requires_allocation 32 (fun mm => (EfiStatus.success, mm)) ⟨0, 0, false⟩).1
     (Or.inl rfl),
   ((c7_populate_requires_allocation 32 (fun mm => (EfiStatus.success, mm)) ⟨100, 1, true⟩).2
     rfl (by decide)).trans (by decide)⟩

/-- C8: a section whose characteristics set the code bit together with an
initialized- or uninitialized-data bit fails unconditionally, for every
page-table oracle (so no attribute query can influence it); and an image
whose section alignment is misaligned for its memory type fails
immediately with all section attribute checks skipped, again for every
oracle and every section list. -/
theorem c8_code_data_sections_fail :
    (∀ (q : Nat → Nat → QueryResult) (imageBase sectionAlignment : Nat) (s : SectionInfo),
      s.characteristics &&& EFI_IMAGE_SCN_CNT_CODE ≠ 0 →
      s.characteristics &&& (EFI_IMAGE_SCN_CNT_INITIALIZED_DATA |||
        EFI_IMAGE_SCN_CNT_UNINITIALIZED_DATA) ≠ 0 →
      sectionCheckFails q imageBase sectionAlignment s = true) ∧
    (∀ (q : Nat → Nat → QueryResult) (img : ImageInfo),
      isLoadedImageSectionAligned img.sectionAlignment img.imageCodeType = false →
      imageCheckFails q img = true) := by
  constructor
  · intro q imageBase sectionAlignment s h1 h2
    simp [sectionCheckFails, h1, h2]
  · intro q img h
    simp [imageCheckFails, h]

/-- C8 witness: a section marked code plus initialized data fails, and a
boot-services-code image with section alignment 0x1001 is misaligned and
fails. -/
theorem c8_witness :
    sectionCheckFails (fun _ _ => ⟨QStatus.success, 0, 0x1000⟩) 0x100000 0x1000
      ⟨0, 0x1000, 0x60⟩ = true ∧
    imageCheckFails (fun _ _ => ⟨QStatus.success, 0, 0x1000⟩)
      ⟨0x100000, 0x1001, EfiMemoryType.bootServicesCode, [⟨0, 0x1000, 0x40000040⟩]⟩ = true :=
  ⟨c8_code_data_sections_fail.1 (fun _ _ => ⟨QStatus.success, 0, 0x1000⟩) 0x100000 0x1000
     ⟨0, 0x1000, 0x60⟩ (by decide) (by decide),
   c8_code_data_sections_fail.2 (fun _ _ => ⟨QStatus.success, 0, 0x1000⟩)
     ⟨0x100000, 0x1001, EfiMemoryType.bootServicesCode, [⟨0, 0x1000, 0x40000040⟩]⟩ (by decide)⟩

/-- C9: the out-of-inventory check reads the first EFI memory-map
descriptor and the first and last memory-space-map descriptors before any
emptiness test, so it produces a verdict exactly when both inventories
hold at least one entry; an empty inventory is never handled as a
distinct case and falls into the out-of-bounds access modelled by none. -/
theorem c9_inventory_nonempty (q : Nat → Nat → QueryResult)
    (msm : List GcdMemorySpaceDescriptor) (emm : List EfiMemoryDescriptor) :
    (memoryOutsideEfiMemoryMapIsInaccessible q msm emm).isSome = true ↔
      msm ≠ [] ∧ emm ≠ [] := by
  match msm, emm with
  | [], _ => simp [memoryOutsideEfiMemoryMapIsInaccessible]
  | a :: as, [] => simp [memoryOutsideEfiMemoryMapIsInaccessible]
  | a :: as, b :: bs =>
      have h : (a :: as).getLast? = some ((a :: as).getLast (by simp)) :=
        List.getLast?_eq_getLast (a :: as) (by simp)
      simp [memoryOutsideEfiMemoryMapIsInaccessible, h]

/-- C1 witness: with both guard lists NULL, CanRegionBeRWX is false. -/
theorem c1_witness :
    canRegionBeRWX ⟨none, none, some []⟩ 3 5 = false :=
  (c1_canRegionBeRWX_exemption ⟨none, none, some []⟩ 3 5).2 rfl rfl
